import Mathlib

/-!
Shallow embedding of `sdk/core/src/SelfBackendVerifier.ts` from the
`self` SDK: the verification orchestrator that configures a disclosure
policy, assembles an on-chain verification request from a proof and its
public signals, submits it, and interprets the response.

External collaborators (the ledger registry, the on-chain verifier, the
country-list packer, the user-identifier decoder and the wall clock) are
modelled as an explicit environment record of `Except`-valued
capabilities; a thrown JavaScript exception is an `Except.error`.
-/

namespace SelfSDK

/-- Modelled from the spec: the shared index table `CIRCUIT_CONSTANTS`
lives in `common/src/constants/constants`, which is outside the embedded
sources.  The spec only requires that specific fixed indices of the
public-signal sequence carry the scope, attestation id, merkle root,
nullifier and user identifier; the concrete values below stand in for
that table and nothing in the development depends on which value each
one is. -/
def VC_AND_DISCLOSE_NULLIFIER_INDEX : Nat := 7

/-- Modelled from the spec: attestation-id position of the shared index
table (see `VC_AND_DISCLOSE_NULLIFIER_INDEX`). -/
def VC_AND_DISCLOSE_ATTESTATION_ID_INDEX : Nat := 8

/-- Modelled from the spec: merkle-root position of the shared index
table (see `VC_AND_DISCLOSE_NULLIFIER_INDEX`). -/
def VC_AND_DISCLOSE_MERKLE_ROOT_INDEX : Nat := 9

/-- Modelled from the spec: user-identifier position of the shared index
table (see `VC_AND_DISCLOSE_NULLIFIER_INDEX`). -/
def VC_AND_DISCLOSE_USER_IDENTIFIER_INDEX : Nat := 19

/-- Modelled from the spec: scope position of the shared index table
(see `VC_AND_DISCLOSE_NULLIFIER_INDEX`). -/
def VC_AND_DISCLOSE_SCOPE_INDEX : Nat := 20

/-- Modelled from the spec: the `revealedDataTypes` enumeration of
disclosure-field identifiers (`common/src/constants/constants`, outside
the embedded sources).  The development relies only on these being
fixed, pairwise distinct identifiers; the response mapping returned by
the verifier is indexed by them. -/
def revealedDataTypes.issuing_state : Nat := 0

/-- Modelled from the spec: `revealedDataTypes.name`. -/
def revealedDataTypes.name : Nat := 1

/-- Modelled from the spec: `revealedDataTypes.passport_number`. -/
def revealedDataTypes.passport_number : Nat := 2

/-- Modelled from the spec: `revealedDataTypes.nationality`. -/
def revealedDataTypes.nationality : Nat := 3

/-- Modelled from the spec: `revealedDataTypes.date_of_birth`. -/
def revealedDataTypes.date_of_birth : Nat := 4

/-- Modelled from the spec: `revealedDataTypes.gender`. -/
def revealedDataTypes.gender : Nat := 5

/-- Modelled from the spec: `revealedDataTypes.expiry_date`. -/
def revealedDataTypes.expiry_date : Nat := 6

/-- Modelled from the spec: `revealedDataTypes.older_than`. -/
def revealedDataTypes.older_than : Nat := 7

/-- Modelled from the spec: `revealedDataTypes.passport_no_ofac`. -/
def revealedDataTypes.passport_no_ofac : Nat := 8

/-- Modelled from the spec: `revealedDataTypes.name_and_dob_ofac`. -/
def revealedDataTypes.name_and_dob_ofac : Nat := 9

/-- Modelled from the spec: `revealedDataTypes.name_and_yob_ofac`. -/
def revealedDataTypes.name_and_yob_ofac : Nat := 10

/-- An `{enabled, value}` pair, the shape used by the `minimumAge`,
`nationality`, `excludedCountries` and `targetRootTimestamp` fields of
`SelfBackendVerifier` (source lines 29-51). -/
structure Toggle (α : Type) where
  enabled : Bool
  value : α
deriving DecidableEq, Repr

/-- The mutable policy state of a `SelfBackendVerifier` instance
(source lines 26-54).  `scope` holds the hash computed at construction
(the hash itself is an external capability); `user_identifier_type` is
consumed only by the external identifier decoder and is therefore
absorbed into the environment's `castToUserIdentifier`. -/
structure Config where
  scope : String
  attestationId : Nat
  targetRootTimestamp : Toggle Nat
  nationality : Toggle String
  minimumAge : Toggle String
  excludedCountries : Toggle (List String)
  passportNoOfac : Bool
  nameAndDobOfac : Bool
  nameAndYobOfac : Bool
deriving DecidableEq, Repr

/-- The field initializers of `SelfBackendVerifier` (source lines 26-54):
`attestationId = 1`, every check disabled, `minimumAge.value = "18"`,
empty exclusion list.  The constructor stores the hashed scope, taken
here as a parameter since the hash function is an external capability. -/
def mkConfig (scope : String) : Config :=
  { scope := scope
    attestationId := 1
    targetRootTimestamp := { enabled := false, value := 0 }
    nationality := { enabled := false, value := "" }
    minimumAge := { enabled := false, value := "18" }
    excludedCountries := { enabled := false, value := [] }
    passportNoOfac := false
    nameAndDobOfac := false
    nameAndYobOfac := false }

/-- Raw proof points as `verify` consumes them: components `a` and `c`,
and the 2x2 component `b` with entries `b[i][j]` written `bij`. -/
structure ProofPoints where
  a : String
  b00 : String
  b01 : String
  b10 : String
  b11 : String
  c : String
deriving DecidableEq, Repr

/-- The `vcAndDiscloseProof` sub-record of the submitted payload
(source lines 93-101). -/
structure VcAndDiscloseProof where
  a : String
  b : List (List String)
  c : String
  pubSignals : List String
deriving DecidableEq, Repr

/-- The full `vcAndDiscloseHubProof` payload submitted to the verifier
(source lines 87-102). -/
structure VcAndDiscloseHubProof where
  olderThanEnabled : Bool
  olderThan : String
  forbiddenCountriesEnabled : Bool
  forbiddenCountriesListPacked : List String
  ofacEnabled : List Bool
  vcAndDiscloseProof : VcAndDiscloseProof
deriving DecidableEq, Repr

/-- The verifier's response: `fields` is `result[0]`, the
field-identifier-indexed mapping of decoded disclosure values (`none`
models an absent/undefined entry), `isValidProof` is `result[1]`, the
structural-validity flag, and `err` is `result[2]`, the in-band error
slot. -/
structure VerifyAllResult where
  fields : Nat → Option String
  isValidProof : Bool
  err : Option String

/-- The `isValidDetails` breakdown of the outcome. -/
structure IsValidDetails where
  isValidScope : Bool
  isValidAttestationId : Bool
  isValidProof : Bool
  isValidNationality : Bool
deriving DecidableEq, Repr

/-- The decoded credential subject (source lines 170-185).  Fields
copied verbatim from the response mapping keep their `Option` (an
absent entry is copied as `undefined`); `older_than` and the three OFAC
fields go through `.toString()` and so require a present value. -/
structure CredentialSubject where
  merkle_root : Option String
  attestation_id : String
  current_date : String
  issuing_state : Option String
  name : Option String
  passport_number : Option String
  nationality : Option String
  date_of_birth : Option String
  gender : Option String
  expiry_date : Option String
  older_than : String
  passport_no_ofac : Bool
  name_and_dob_ofac : Bool
  name_and_yob_ofac : Bool
deriving DecidableEq, Repr

/-- The outcome record returned by `verify`.  `credentialSubject = none`
models the empty object `{}` returned on the caught verifier-call
failure path; the echoed proof and public signals are kept as two
fields. -/
structure SelfVerificationResult where
  isValid : Bool
  isValidDetails : IsValidDetails
  userId : String
  application : String
  nullifier : Option String
  credentialSubject : Option CredentialSubject
  proofValue : ProofPoints
  publicSignalsValue : List String
  error : Option String
deriving DecidableEq, Repr

/-- The external capabilities `verify` consumes, as `Except`-valued
functions: `Except.error` models a thrown exception.
`packForbiddenCountriesList`, `castToUserIdentifier` and the scope hash
live in `common/src` outside the embedded sources and the registry and
verifier are remote contracts, so all are kept abstract.  `now` is the
wall clock read for `current_date`. -/
structure VerifyEnv where
  packForbiddenCountriesList : List String → Except String (List String)
  getIdentityCommitmentMerkleRoot : Except String String
  rootTimestamps : String → Except String Nat
  castToUserIdentifier : Option String → Except String String
  verifyAll : Nat → VcAndDiscloseHubProof → List Nat → Except String VerifyAllResult
  now : String

/-- The requested-fields list built by `verify` (source lines 104-128):
the 7 mandatory identifiers in fixed order, then `older_than`,
`passport_no_ofac`, `name_and_dob_ofac`, `name_and_yob_ofac`, each
pushed only when its policy flag is enabled. -/
def requestedTypes (cfg : Config) : List Nat :=
  let types := [revealedDataTypes.issuing_state, revealedDataTypes.name,
    revealedDataTypes.passport_number, revealedDataTypes.nationality,
    revealedDataTypes.date_of_birth, revealedDataTypes.gender,
    revealedDataTypes.expiry_date]
  let types := if cfg.minimumAge.enabled then types ++ [revealedDataTypes.older_than] else types
  let types := if cfg.passportNoOfac then types ++ [revealedDataTypes.passport_no_ofac] else types
  let types := if cfg.nameAndDobOfac then types ++ [revealedDataTypes.name_and_dob_ofac] else types
  if cfg.nameAndYobOfac then types ++ [revealedDataTypes.name_and_yob_ofac] else types

/-- The `vcAndDiscloseHubProof` payload assembled by `verify`
(source lines 87-102): policy flags, the packed exclusion list, and the
proof with the column order of each row of `b` swapped
(`b = [[proof.b[0][1], proof.b[0][0]], [proof.b[1][1], proof.b[1][0]]]`)
while `a`, `c` and the public signals pass through unchanged. -/
def buildHubProof (cfg : Config) (forbiddenCountriesListPacked : List String)
    (proof : ProofPoints) (publicSignals : List String) : VcAndDiscloseHubProof :=
  { olderThanEnabled := cfg.minimumAge.enabled
    olderThan := cfg.minimumAge.value
    forbiddenCountriesEnabled := cfg.excludedCountries.enabled
    forbiddenCountriesListPacked := forbiddenCountriesListPacked
    ofacEnabled := [cfg.passportNoOfac, cfg.nameAndDobOfac, cfg.nameAndYobOfac]
    vcAndDiscloseProof :=
      { a := proof.a
        b := [[proof.b01, proof.b00], [proof.b11, proof.b10]]
        c := proof.c
        pubSignals := publicSignals } }

/-- `verify(proof, publicSignals)` (source lines 77-209).  The packer,
the two sequential registry reads and the identifier decoding happen
outside the `try`, so their failures propagate; only the `verifyAll`
call is caught and converted into a failure outcome.  On the response
path the credential-subject decode calls `.toString()` on the
`older_than` entry and the three OFAC entries unconditionally, so an
absent value there throws (the final `Except.error`). -/
def verify (cfg : Config) (env : VerifyEnv) (proof : ProofPoints)
    (publicSignals : List String) : Except String SelfVerificationResult := do
  let forbiddenCountriesListPacked ← env.packForbiddenCountriesList cfg.excludedCountries.value
  let isValidScope := publicSignals.get? VC_AND_DISCLOSE_SCOPE_INDEX == some cfg.scope
  let isValidAttestationId :=
    some (toString cfg.attestationId) == publicSignals.get? VC_AND_DISCLOSE_ATTESTATION_ID_INDEX
  let vcAndDiscloseHubProof := buildHubProof cfg forbiddenCountriesListPacked proof publicSignals
  let types := requestedTypes cfg
  let currentRoot ← env.getIdentityCommitmentMerkleRoot
  let timestamp ← env.rootTimestamps currentRoot
  let user_identifier ← env.castToUserIdentifier
    (publicSignals.get? VC_AND_DISCLOSE_USER_IDENTIFIER_INDEX)
  match env.verifyAll timestamp vcAndDiscloseHubProof types with
  | .error err =>
    .ok { isValid := false
          isValidDetails :=
            { isValidScope := false, isValidAttestationId := false,
              isValidProof := false, isValidNationality := false }
          userId := user_identifier
          application := cfg.scope
          nullifier := publicSignals.get? VC_AND_DISCLOSE_NULLIFIER_INDEX
          credentialSubject := none
          proofValue := proof
          publicSignalsValue := publicSignals
          error := some err }
  | .ok result =>
    let isValidNationality :=
      if cfg.nationality.enabled then
        result.fields revealedDataTypes.nationality == some cfg.nationality.value
      else true
    match result.fields revealedDataTypes.older_than,
        result.fields revealedDataTypes.passport_no_ofac,
        result.fields revealedDataTypes.name_and_dob_ofac,
        result.fields revealedDataTypes.name_and_yob_ofac with
    | some olderThanVal, some passportNoOfacVal, some nameAndDobOfacVal, some nameAndYobOfacVal =>
      .ok { isValid := result.isValidProof && isValidScope && isValidAttestationId &&
              isValidNationality
            isValidDetails :=
              { isValidScope := isValidScope
                isValidAttestationId := isValidAttestationId
                isValidProof := result.isValidProof
                isValidNationality := isValidNationality }
            userId := user_identifier
            application := cfg.scope
            nullifier := publicSignals.get? VC_AND_DISCLOSE_NULLIFIER_INDEX
            credentialSubject := some
              { merkle_root := publicSignals.get? VC_AND_DISCLOSE_MERKLE_ROOT_INDEX
                attestation_id := toString cfg.attestationId
                current_date := env.now
                issuing_state := result.fields revealedDataTypes.issuing_state
                name := result.fields revealedDataTypes.name
                passport_number := result.fields revealedDataTypes.passport_number
                nationality := result.fields revealedDataTypes.nationality
                date_of_birth := result.fields revealedDataTypes.date_of_birth
                gender := result.fields revealedDataTypes.gender
                expiry_date := result.fields revealedDataTypes.expiry_date
                older_than := olderThanVal
                passport_no_ofac := passportNoOfacVal == "1"
                name_and_dob_ofac := nameAndDobOfacVal == "1"
                name_and_yob_ofac := nameAndYobOfacVal == "1" }
            proofValue := proof
            publicSignalsValue := publicSignals
            error := result.err }
    | _, _, _, _ => .error "TypeError: undefined has no toString"

/-- `setMinimumAge(age)` (source lines 211-220): throws for `age <= 0`
and for `age > 100`, otherwise enables the check and stores the age in
its string form. -/
def setMinimumAge (cfg : Config) (age : Int) : Except String Config :=
  if age ≤ 0 then .error "Minimum age must be positive"
  else if age > 100 then .error "Minimum age must be at most 100 years old"
  else .ok { cfg with minimumAge := { enabled := true, value := toString age } }

/-- `setNationality(country)` (source lines 222-225). -/
def setNationality (cfg : Config) (country : String) : Config :=
  { cfg with nationality := { enabled := true, value := country } }

/-- `excludeCountries(...countries)` (source lines 227-233): throws when
more than 40 codes are supplied, otherwise replaces the stored
exclusion state. -/
def excludeCountries (cfg : Config) (countries : List String) : Except String Config :=
  if countries.length > 40 then .error "Number of excluded countries cannot exceed 40"
  else .ok { cfg with excludedCountries := { enabled := true, value := countries } }

/-- `enablePassportNoOfacCheck()` (source lines 235-238). -/
def enablePassportNoOfacCheck (cfg : Config) : Config :=
  { cfg with passportNoOfac := true }

/-- `enableNameAndDobOfacCheck()` (source lines 240-243). -/
def enableNameAndDobOfacCheck (cfg : Config) : Config :=
  { cfg with nameAndDobOfac := true }

/-- `enableNameAndYobOfacCheck()` (source lines 245-248). -/
def enableNameAndYobOfacCheck (cfg : Config) : Config :=
  { cfg with nameAndYobOfac := true }

/-- Sample proof points used to instantiate the theorems on concrete
inputs. -/
def sampleProof : ProofPoints :=
  { a := "pa", b00 := "pb00", b01 := "pb01", b10 := "pb10", b11 := "pb11", c := "pc" }

/-- Sample public signals: position `i` holds the decimal string of
`i`, long enough to cover every index of the shared table. -/
def sampleSignals : List String :=
  ["0", "1", "2", "3", "4", "5", "6", "7", "8", "9", "10",
   "11", "12", "13", "14", "15", "16", "17", "18", "19", "20"]

/-- A sample verifier response in which every disclosure field is
present: field `i` decodes to the decimal string of `i`. -/
def sampleResult : VerifyAllResult :=
  { fields := fun i => some (toString i), isValidProof := true, err := none }

/-- A sample environment in which every capability succeeds. -/
def sampleEnv : VerifyEnv :=
  { packForbiddenCountriesList := fun l => .ok l
    getIdentityCommitmentMerkleRoot := .ok "root"
    rootTimestamps := fun _ => .ok 5
    castToUserIdentifier := fun s => .ok (s.getD "")
    verifyAll := fun _ _ _ => .ok sampleResult
    now := "2026-01-01T00:00:00.000Z" }

/-- A sample environment whose verifier call throws. -/
def throwEnv : VerifyEnv :=
  { sampleEnv with verifyAll := fun _ _ _ => .error "revert" }

/-- A sample verifier response whose field mapping is entirely absent. -/
def missingResult : VerifyAllResult :=
  { fields := fun _ => none, isValidProof := true, err := none }

/-- A sample environment whose verifier call succeeds but returns an
empty field mapping. -/
def missingEnv : VerifyEnv :=
  { sampleEnv with verifyAll := fun _ _ _ => .ok missingResult }

/-- A sample environment whose country-list packer throws. -/
def packFailEnv : VerifyEnv :=
  { sampleEnv with packForbiddenCountriesList := fun _ => .error "pack failed" }

/-- A sample environment whose merkle-root fetch throws. -/
def rootFailEnv : VerifyEnv :=
  { sampleEnv with getIdentityCommitmentMerkleRoot := .error "root failed" }

/-- A sample environment whose root-timestamp fetch throws. -/
def tsFailEnv : VerifyEnv :=
  { sampleEnv with rootTimestamps := fun _ => .error "timestamp failed" }

/-- Reduction of monadic bind at a success value. -/
theorem bind_ok_eq {α β : Type} (a : α) (f : α → Except String β) :
    (Except.ok a : Except String α) >>= f = f a := rfl

/-- Reduction of monadic bind at a thrown error. -/
theorem bind_error_eq {α β : Type} (e : String) (f : α → Except String β) :
    (Except.error e : Except String α) >>= f = Except.error e := rfl

/-- Characterization of `verify` on the response path: when the packer,
both registry reads and the identifier decode succeed, the verifier
returns a response, and the response mapping is defined at the four
unconditionally decoded indices, `verify` returns exactly this outcome
record. -/
theorem verify_response_eq (cfg : Config) (env : VerifyEnv) (proof : ProofPoints)
    (ps packed : List String) (root : String) (ts : Nat) (uid : String)
    (r : VerifyAllResult) (oT pV dV yV : String)
    (hpack : env.packForbiddenCountriesList cfg.excludedCountries.value = .ok packed)
    (hroot : env.getIdentityCommitmentMerkleRoot = .ok root)
    (hts : env.rootTimestamps root = .ok ts)
    (hcast : env.castToUserIdentifier (ps.get? VC_AND_DISCLOSE_USER_IDENTIFIER_INDEX) = .ok uid)
    (hva : env.verifyAll ts (buildHubProof cfg packed proof ps) (requestedTypes cfg) = .ok r)
    (hoT : r.fields revealedDataTypes.older_than = some oT)
    (hpV : r.fields revealedDataTypes.passport_no_ofac = some pV)
    (hdV : r.fields revealedDataTypes.name_and_dob_ofac = some dV)
    (hyV : r.fields revealedDataTypes.name_and_yob_ofac = some yV) :
    verify cfg env proof ps = .ok
      { isValid := r.isValidProof && (ps.get? VC_AND_DISCLOSE_SCOPE_INDEX == some cfg.scope) &&
          (some (toString cfg.attestationId) == ps.get? VC_AND_DISCLOSE_ATTESTATION_ID_INDEX) &&
          (if cfg.nationality.enabled then
            r.fields revealedDataTypes.nationality == some cfg.nationality.value else true)
        isValidDetails :=
          { isValidScope := ps.get? VC_AND_DISCLOSE_SCOPE_INDEX == some cfg.scope
            isValidAttestationId :=
              some (toString cfg.attestationId) == ps.get? VC_AND_DISCLOSE_ATTESTATION_ID_INDEX
            isValidProof := r.isValidProof
            isValidNationality := if cfg.nationality.enabled then
              r.fields revealedDataTypes.nationality == some cfg.nationality.value else true }
        userId := uid
        application := cfg.scope
        nullifier := ps.get? VC_AND_DISCLOSE_NULLIFIER_INDEX
        credentialSubject := some
          { merkle_root := ps.get? VC_AND_DISCLOSE_MERKLE_ROOT_INDEX
            attestation_id := toString cfg.attestationId
            current_date := env.now
            issuing_state := r.fields revealedDataTypes.issuing_state
            name := r.fields revealedDataTypes.name
            passport_number := r.fields revealedDataTypes.passport_number
            nationality := r.fields revealedDataTypes.nationality
            date_of_birth := r.fields revealedDataTypes.date_of_birth
            gender := r.fields revealedDataTypes.gender
            expiry_date := r.fields revealedDataTypes.expiry_date
            older_than := oT
            passport_no_ofac := pV == "1"
            name_and_dob_ofac := dV == "1"
            name_and_yob_ofac := yV == "1" }
        proofValue := proof
        publicSignalsValue := ps
        error := r.err } := by
  unfold verify
  rw [hpack]
  simp only [bind_ok_eq]
  rw [hroot]
  simp only [bind_ok_eq]
  rw [hts]
  simp only [bind_ok_eq]
  rw [hcast]
  simp only [bind_ok_eq]
  rw [hva]
  simp only [hoT, hpV, hdV, hyV]

/-- C1: on every `verify` call in which the verifier returns a response,
the outcome's `isValidScope` is exact equality of the locally stored
scope hash with the scope-index public signal, `isValidAttestationId`
is string equality of the configured attestation id (rendered as a
string) with the attestation-id-index public signal, and `isValid` is
the conjunction of the four sub-checks, so any single false sub-check
forces `isValid = false`. -/
theorem verify_response_subchecks (cfg : Config) (env : VerifyEnv) (proof : ProofPoints)
    (ps packed : List String) (root : String) (ts : Nat) (uid : String)
    (r : VerifyAllResult) (oT pV dV yV : String)
    (hpack : env.packForbiddenCountriesList cfg.excludedCountries.value = .ok packed)
    (hroot : env.getIdentityCommitmentMerkleRoot = .ok root)
    (hts : env.rootTimestamps root = .ok ts)
    (hcast : env.castToUserIdentifier (ps.get? VC_AND_DISCLOSE_USER_IDENTIFIER_INDEX) = .ok uid)
    (hva : env.verifyAll ts (buildHubProof cfg packed proof ps) (requestedTypes cfg) = .ok r)
    (hoT : r.fields revealedDataTypes.older_than = some oT)
    (hpV : r.fields revealedDataTypes.passport_no_ofac = some pV)
    (hdV : r.fields revealedDataTypes.name_and_dob_ofac = some dV)
    (hyV : r.fields revealedDataTypes.name_and_yob_ofac = some yV) :
    ∃ out, verify cfg env proof ps = .ok out ∧
      out.isValidDetails.isValidScope =
        (ps.get? VC_AND_DISCLOSE_SCOPE_INDEX == some cfg.scope) ∧
      out.isValidDetails.isValidAttestationId =
        (some (toString cfg.attestationId) == ps.get? VC_AND_DISCLOSE_ATTESTATION_ID_INDEX) ∧
      out.isValid = (out.isValidDetails.isValidProof && out.isValidDetails.isValidScope &&
        out.isValidDetails.isValidAttestationId && out.isValidDetails.isValidNationality) ∧
      (out.isValidDetails.isValidProof = false ∨ out.isValidDetails.isValidScope = false ∨
          out.isValidDetails.isValidAttestationId = false ∨
          out.isValidDetails.isValidNationality = false →
        out.isValid = false) := by
  refine ⟨_, verify_response_eq cfg env proof ps packed root ts uid r oT pV dV yV
    hpack hroot hts hcast hva hoT hpV hdV hyV, rfl, rfl, rfl, ?_⟩
  intro h
  rcases h with h | h | h | h <;> simp_all

/-- C2: on every `verify` call in which the verifier call itself
throws, the exception is not propagated: `verify` returns an outcome
with `isValid = false`, all four sub-checks false, an empty credential
subject, the thrown error in the `error` field, and `userId`,
`application` and `nullifier` still populated from the locally known
values. -/
theorem verify_catch_outcome (cfg : Config) (env : VerifyEnv) (proof : ProofPoints)
    (ps packed : List String) (root : String) (ts : Nat) (uid : String) (e : String)
    (hpack : env.packForbiddenCountriesList cfg.excludedCountries.value = .ok packed)
    (hroot : env.getIdentityCommitmentMerkleRoot = .ok root)
    (hts : env.rootTimestamps root = .ok ts)
    (hcast : env.castToUserIdentifier (ps.get? VC_AND_DISCLOSE_USER_IDENTIFIER_INDEX) = .ok uid)
    (hva : env.verifyAll ts (buildHubProof cfg packed proof ps) (requestedTypes cfg) =
      .error e) :
    verify cfg env proof ps = .ok
      { isValid := false
        isValidDetails :=
          { isValidScope := false, isValidAttestationId := false,
            isValidProof := false, isValidNationality := false }
        userId := uid
        application := cfg.scope
        nullifier := ps.get? VC_AND_DISCLOSE_NULLIFIER_INDEX
        credentialSubject := none
        proofValue := proof
        publicSignalsValue := ps
        error := some e } := by
  unfold verify
  rw [hpack]
  simp only [bind_ok_eq]
  rw [hroot]
  simp only [bind_ok_eq]
  rw [hts]
  simp only [bind_ok_eq]
  rw [hcast]
  simp only [bind_ok_eq]
  rw [hva]

/-- Witness for C2 at concrete inputs: a default configuration, the
sample signals and an environment whose verifier call throws. -/
theorem verify_catch_outcome_witness :
    verify (mkConfig "s") throwEnv sampleProof sampleSignals = .ok
      { isValid := false
        isValidDetails :=
          { isValidScope := false, isValidAttestationId := false,
            isValidProof := false, isValidNationality := false }
        userId := "19"
        application := "s"
        nullifier := sampleSignals.get? VC_AND_DISCLOSE_NULLIFIER_INDEX
        credentialSubject := none
        proofValue := sampleProof
        publicSignalsValue := sampleSignals
        error := some "revert" } :=
  verify_catch_outcome (mkConfig "s") throwEnv sampleProof sampleSignals
    [] "root" 5 "19" "revert" rfl rfl rfl rfl rfl

/-- C7: on the response path, `isValidNationality` is vacuously true
when the nationality check is disabled; when it is enabled it holds iff
the decoded nationality field equals the configured nationality value,
and a mismatch forces `isValid = false`. -/
theorem verify_nationality_check (cfg : Config) (env : VerifyEnv) (proof : ProofPoints)
    (ps packed : List String) (root : String) (ts : Nat) (uid : String)
    (r : VerifyAllResult) (oT pV dV yV : String)
    (hpack : env.packForbiddenCountriesList cfg.excludedCountries.value = .ok packed)
    (hroot : env.getIdentityCommitmentMerkleRoot = .ok root)
    (hts : env.rootTimestamps root = .ok ts)
    (hcast : env.castToUserIdentifier (ps.get? VC_AND_DISCLOSE_USER_IDENTIFIER_INDEX) = .ok uid)
    (hva : env.verifyAll ts (buildHubProof cfg packed proof ps) (requestedTypes cfg) = .ok r)
    (hoT : r.fields revealedDataTypes.older_than = some oT)
    (hpV : r.fields revealedDataTypes.passport_no_ofac = some pV)
    (hdV : r.fields revealedDataTypes.name_and_dob_ofac = some dV)
    (hyV : r.fields revealedDataTypes.name_and_yob_ofac = some yV) :
    ∃ out, verify cfg env proof ps = .ok out ∧
      (cfg.nationality.enabled = false → out.isValidDetails.isValidNationality = true) ∧
      (cfg.nationality.enabled = true →
        out.isValidDetails.isValidNationality =
          (r.fields revealedDataTypes.nationality == some cfg.nationality.value)) ∧
      (out.isValidDetails.isValidNationality = false → out.isValid = false) := by
  refine ⟨_, verify_response_eq cfg env proof ps packed root ts uid r oT pV dV yV
    hpack hroot hts hcast hva hoT hpV hdV hyV, ?_, ?_, ?_⟩
  · intro h
    simp [h]
  · intro h
    simp [h]
  · intro h
    simp_all

/-- Witness for C1 at concrete inputs: default configuration, sample
proof and signals, an all-succeeding environment. -/
theorem verify_response_subchecks_witness :
    ∃ out, verify (mkConfig "s") sampleEnv sampleProof sampleSignals = .ok out ∧
      out.isValidDetails.isValidScope =
        (sampleSignals.get? VC_AND_DISCLOSE_SCOPE_INDEX == some (mkConfig "s").scope) ∧
      out.isValidDetails.isValidAttestationId =
        (some (toString (mkConfig "s").attestationId) ==
          sampleSignals.get? VC_AND_DISCLOSE_ATTESTATION_ID_INDEX) ∧
      out.isValid = (out.isValidDetails.isValidProof && out.isValidDetails.isValidScope &&
        out.isValidDetails.isValidAttestationId && out.isValidDetails.isValidNationality) ∧
      (out.isValidDetails.isValidProof = false ∨ out.isValidDetails.isValidScope = false ∨
          out.isValidDetails.isValidAttestationId = false ∨
          out.isValidDetails.isValidNationality = false →
        out.isValid = false) :=
  verify_response_subchecks (mkConfig "s") sampleEnv sampleProof sampleSignals
    [] "root" 5 "19" sampleResult "7" "8" "9" "10" rfl rfl rfl rfl rfl rfl rfl rfl rfl

/-- Witness for C7 at concrete inputs: nationality check enabled for
"FRA" while the decoded response carries "3" at the nationality index,
so the mismatch is exercised. -/
theorem verify_nationality_check_witness :
    ∃ out, verify (setNationality (mkConfig "s") "FRA") sampleEnv sampleProof sampleSignals =
        .ok out ∧
      ((setNationality (mkConfig "s") "FRA").nationality.enabled = false →
        out.isValidDetails.isValidNationality = true) ∧
      ((setNationality (mkConfig "s") "FRA").nationality.enabled = true →
        out.isValidDetails.isValidNationality =
          (sampleResult.fields revealedDataTypes.nationality ==
            some (setNationality (mkConfig "s") "FRA").nationality.value)) ∧
      (out.isValidDetails.isValidNationality = false → out.isValid = false) :=
  verify_nationality_check (setNationality (mkConfig "s") "FRA") sampleEnv sampleProof
    sampleSignals [] "root" 5 "19" sampleResult "7" "8" "9" "10"
    rfl rfl rfl rfl rfl rfl rfl rfl rfl

/-- C3: for every combination of the four policy flags, the
requested-fields list is exactly the 7 mandatory identifiers in fixed
order followed by `older_than` iff the age check is enabled, then each
OFAC identifier iff its flag is enabled; with the age check enabled and
only the passport-number OFAC flag set, the list has exactly 9 entries
in that order. -/
theorem requestedTypes_spec (cfg : Config) :
    requestedTypes cfg =
      [revealedDataTypes.issuing_state, revealedDataTypes.name,
        revealedDataTypes.passport_number, revealedDataTypes.nationality,
        revealedDataTypes.date_of_birth, revealedDataTypes.gender,
        revealedDataTypes.expiry_date]
        ++ (if cfg.minimumAge.enabled then [revealedDataTypes.older_than] else [])
        ++ (if cfg.passportNoOfac then [revealedDataTypes.passport_no_ofac] else [])
        ++ (if cfg.nameAndDobOfac then [revealedDataTypes.name_and_dob_ofac] else [])
        ++ (if cfg.nameAndYobOfac then [revealedDataTypes.name_and_yob_ofac] else []) ∧
    (cfg.minimumAge.enabled = true → cfg.passportNoOfac = true →
      cfg.nameAndDobOfac = false → cfg.nameAndYobOfac = false →
      requestedTypes cfg =
        [revealedDataTypes.issuing_state, revealedDataTypes.name,
          revealedDataTypes.passport_number, revealedDataTypes.nationality,
          revealedDataTypes.date_of_birth, revealedDataTypes.gender,
          revealedDataTypes.expiry_date, revealedDataTypes.older_than,
          revealedDataTypes.passport_no_ofac] ∧
      (requestedTypes cfg).length = 9) := by
  constructor
  · cases hA : cfg.minimumAge.enabled <;> cases hB : cfg.passportNoOfac <;>
      cases hC : cfg.nameAndDobOfac <;> cases hD : cfg.nameAndYobOfac <;>
      simp [requestedTypes, hA, hB, hC, hD]
  · intro h1 h2 h3 h4
    have h : requestedTypes cfg =
        [revealedDataTypes.issuing_state, revealedDataTypes.name,
          revealedDataTypes.passport_number, revealedDataTypes.nationality,
          revealedDataTypes.date_of_birth, revealedDataTypes.gender,
          revealedDataTypes.expiry_date, revealedDataTypes.older_than,
          revealedDataTypes.passport_no_ofac] := by
      simp [requestedTypes, h1, h2, h3, h4]
    exact ⟨h, by rw [h]; rfl⟩

/-- Witness for C3 at a concrete configuration with the age check and
only the passport-number OFAC flag enabled. -/
theorem requestedTypes_spec_witness :
    requestedTypes { mkConfig "s" with
        minimumAge := { enabled := true, value := "18" }, passportNoOfac := true } =
      [revealedDataTypes.issuing_state, revealedDataTypes.name,
        revealedDataTypes.passport_number, revealedDataTypes.nationality,
        revealedDataTypes.date_of_birth, revealedDataTypes.gender,
        revealedDataTypes.expiry_date, revealedDataTypes.older_than,
        revealedDataTypes.passport_no_ofac] ∧
    (requestedTypes { mkConfig "s" with
        minimumAge := { enabled := true, value := "18" }, passportNoOfac := true }).length = 9 :=
  (requestedTypes_spec { mkConfig "s" with
      minimumAge := { enabled := true, value := "18" }, passportNoOfac := true }).2
    rfl rfl rfl rfl

/-- C4: for every proof, the submitted payload carries `b` with the
column order swapped within each row, while `a`, `c` and the public
signals pass through unchanged; the transformation is applied for every
configuration, so it does not depend on any policy setting. -/
theorem buildHubProof_swaps_b (cfg : Config) (packed : List String)
    (proof : ProofPoints) (ps : List String) :
    (buildHubProof cfg packed proof ps).vcAndDiscloseProof.b =
      [[proof.b01, proof.b00], [proof.b11, proof.b10]] ∧
    (buildHubProof cfg packed proof ps).vcAndDiscloseProof.a = proof.a ∧
    (buildHubProof cfg packed proof ps).vcAndDiscloseProof.c = proof.c ∧
    (buildHubProof cfg packed proof ps).vcAndDiscloseProof.pubSignals = ps :=
  ⟨rfl, rfl, rfl, rfl⟩

/-- C5: `setMinimumAge a` throws iff `a ≤ 0` or `a > 100`; for valid
`a` it sets the minimum-age check to `{enabled := true, value :=
toString a}` leaving all other configuration unchanged, so a subsequent
request carries `olderThanEnabled = true` and `olderThan = toString a`. -/
theorem setMinimumAge_spec (cfg : Config) (a : Int) :
    ((∃ e, setMinimumAge cfg a = .error e) ↔ (a ≤ 0 ∨ 100 < a)) ∧
    (∀ cfg', setMinimumAge cfg a = .ok cfg' →
      cfg' = { cfg with minimumAge := { enabled := true, value := toString a } } ∧
      ∀ packed proof ps,
        (buildHubProof cfg' packed proof ps).olderThanEnabled = true ∧
        (buildHubProof cfg' packed proof ps).olderThan = toString a) := by
  constructor
  · by_cases h1 : a ≤ 0
    · simp [setMinimumAge, h1]
    · by_cases h2 : 100 < a
      · simp [setMinimumAge, h1, h2]
      · simp [setMinimumAge, h1, h2]
  · intro cfg' h
    unfold setMinimumAge at h
    split_ifs at h with h1 h2
    injection h with h
    subst h
    exact ⟨rfl, fun packed proof ps => ⟨rfl, rfl⟩⟩

/-- Witness for C5 at the concrete valid age 18. -/
theorem setMinimumAge_spec_witness :
    ({ mkConfig "s" with minimumAge := { enabled := true, value := "18" } } : Config) =
      { mkConfig "s" with minimumAge := { enabled := true, value := toString (18 : Int) } } ∧
    (buildHubProof { mkConfig "s" with minimumAge := { enabled := true, value := "18" } }
      [] sampleProof sampleSignals).olderThanEnabled = true ∧
    (buildHubProof { mkConfig "s" with minimumAge := { enabled := true, value := "18" } }
      [] sampleProof sampleSignals).olderThan = toString (18 : Int) := by
  have h := (setMinimumAge_spec (mkConfig "s") 18).2
    { mkConfig "s" with minimumAge := { enabled := true, value := "18" } } rfl
  exact ⟨h.1, (h.2 [] sampleProof sampleSignals).1, (h.2 [] sampleProof sampleSignals).2⟩

/-- C6: `excludeCountries L` throws iff `L` has more than 40 elements;
on success it sets the exclusion state to `{enabled := true, value :=
L}`, fully replacing any previously stored list and preserving the
order of `L`. -/
theorem excludeCountries_spec (cfg : Config) (L : List String) :
    ((∃ e, excludeCountries cfg L = .error e) ↔ 40 < L.length) ∧
    (∀ cfg', excludeCountries cfg L = .ok cfg' →
      cfg' = { cfg with excludedCountries := { enabled := true, value := L } }) := by
  constructor
  · by_cases h1 : 40 < L.length
    · simp [excludeCountries, h1]
    · simp [excludeCountries, h1]
  · intro cfg' h
    unfold excludeCountries at h
    split_ifs at h with h1
    injection h with h
    subst h
    rfl

/-- Witness for C6 at a concrete two-element list replacing a prior
exclusion state. -/
theorem excludeCountries_spec_witness :
    ({ mkConfig "s" with
        excludedCountries := { enabled := true, value := ["FRA", "USA"] } } : Config) =
      { { mkConfig "s" with excludedCountries := { enabled := true, value := ["DEU"] } } with
        excludedCountries := { enabled := true, value := ["FRA", "USA"] } } :=
  (excludeCountries_spec
      { mkConfig "s" with excludedCountries := { enabled := true, value := ["DEU"] } }
      ["FRA", "USA"]).2
    { mkConfig "s" with excludedCountries := { enabled := true, value := ["FRA", "USA"] } } rfl

/-- C8: a failure of the country-list packer or of either registry call
(merkle-root fetch, timestamp fetch) propagates out of `verify` as a
raised error; unlike a verifier-call failure it is not converted into
an outcome. -/
theorem verify_upstream_propagates (cfg : Config) (env : VerifyEnv) (proof : ProofPoints)
    (ps : List String) :
    (∀ e, env.packForbiddenCountriesList cfg.excludedCountries.value = .error e →
      verify cfg env proof ps = .error e) ∧
    (∀ packed e, env.packForbiddenCountriesList cfg.excludedCountries.value = .ok packed →
      env.getIdentityCommitmentMerkleRoot = .error e →
      verify cfg env proof ps = .error e) ∧
    (∀ packed root e, env.packForbiddenCountriesList cfg.excludedCountries.value = .ok packed →
      env.getIdentityCommitmentMerkleRoot = .ok root →
      env.rootTimestamps root = .error e →
      verify cfg env proof ps = .error e) := by
  refine ⟨?_, ?_, ?_⟩
  · intro e he
    unfold verify
    rw [he]
    simp only [bind_error_eq]
  · intro packed e hp he
    unfold verify
    rw [hp]
    simp only [bind_ok_eq]
    rw [he]
    simp only [bind_error_eq]
  · intro packed root e hp hr he
    unfold verify
    rw [hp]
    simp only [bind_ok_eq]
    rw [hr]
    simp only [bind_ok_eq]
    rw [he]
    simp only [bind_error_eq]

/-- Witness for C8 at concrete environments in which, respectively, the
packer, the merkle-root fetch and the timestamp fetch throw. -/
theorem verify_upstream_propagates_witness :
    verify (mkConfig "s") packFailEnv sampleProof sampleSignals = .error "pack failed" ∧
    verify (mkConfig "s") rootFailEnv sampleProof sampleSignals = .error "root failed" ∧
    verify (mkConfig "s") tsFailEnv sampleProof sampleSignals = .error "timestamp failed" :=
  ⟨(verify_upstream_propagates (mkConfig "s") packFailEnv sampleProof sampleSignals).1
      "pack failed" rfl,
   (verify_upstream_propagates (mkConfig "s") rootFailEnv sampleProof sampleSignals).2.1
      [] "root failed" rfl rfl,
   (verify_upstream_propagates (mkConfig "s") tsFailEnv sampleProof sampleSignals).2.2
      [] "root" "timestamp failed" rfl rfl rfl⟩

/-- C9: each OFAC-enabling setter is idempotent, affects only its own
flag (every other configuration field is preserved), and the three
flags can all be enabled simultaneously. -/
theorem ofac_setters_idempotent (cfg : Config) :
    enablePassportNoOfacCheck (enablePassportNoOfacCheck cfg) = enablePassportNoOfacCheck cfg ∧
    enableNameAndDobOfacCheck (enableNameAndDobOfacCheck cfg) = enableNameAndDobOfacCheck cfg ∧
    enableNameAndYobOfacCheck (enableNameAndYobOfacCheck cfg) = enableNameAndYobOfacCheck cfg ∧
    (enablePassportNoOfacCheck cfg).passportNoOfac = true ∧
    (enablePassportNoOfacCheck cfg).nameAndDobOfac = cfg.nameAndDobOfac ∧
    (enablePassportNoOfacCheck cfg).nameAndYobOfac = cfg.nameAndYobOfac ∧
    (enablePassportNoOfacCheck cfg).scope = cfg.scope ∧
    (enablePassportNoOfacCheck cfg).attestationId = cfg.attestationId ∧
    (enablePassportNoOfacCheck cfg).minimumAge = cfg.minimumAge ∧
    (enablePassportNoOfacCheck cfg).nationality = cfg.nationality ∧
    (enablePassportNoOfacCheck cfg).excludedCountries = cfg.excludedCountries ∧
    (enableNameAndDobOfacCheck cfg).nameAndDobOfac = true ∧
    (enableNameAndDobOfacCheck cfg).passportNoOfac = cfg.passportNoOfac ∧
    (enableNameAndDobOfacCheck cfg).nameAndYobOfac = cfg.nameAndYobOfac ∧
    (enableNameAndDobOfacCheck cfg).scope = cfg.scope ∧
    (enableNameAndDobOfacCheck cfg).attestationId = cfg.attestationId ∧
    (enableNameAndDobOfacCheck cfg).minimumAge = cfg.minimumAge ∧
    (enableNameAndDobOfacCheck cfg).nationality = cfg.nationality ∧
    (enableNameAndDobOfacCheck cfg).excludedCountries = cfg.excludedCountries ∧
    (enableNameAndYobOfacCheck cfg).nameAndYobOfac = true ∧
    (enableNameAndYobOfacCheck cfg).passportNoOfac = cfg.passportNoOfac ∧
    (enableNameAndYobOfacCheck cfg).nameAndDobOfac = cfg.nameAndDobOfac ∧
    (enableNameAndYobOfacCheck cfg).scope = cfg.scope ∧
    (enableNameAndYobOfacCheck cfg).attestationId = cfg.attestationId ∧
    (enableNameAndYobOfacCheck cfg).minimumAge = cfg.minimumAge ∧
    (enableNameAndYobOfacCheck cfg).nationality = cfg.nationality ∧
    (enableNameAndYobOfacCheck cfg).excludedCountries = cfg.excludedCountries ∧
    (enableNameAndYobOfacCheck (enableNameAndDobOfacCheck
      (enablePassportNoOfacCheck cfg))).passportNoOfac = true ∧
    (enableNameAndYobOfacCheck (enableNameAndDobOfacCheck
      (enablePassportNoOfacCheck cfg))).nameAndDobOfac = true ∧
    (enableNameAndYobOfacCheck (enableNameAndDobOfacCheck
      (enablePassportNoOfacCheck cfg))).nameAndYobOfac = true := by
  repeat constructor

/-- C10: on the path where the verifier returns a response, the
credential-subject decode reads the `older_than` entry and all three
OFAC entries unconditionally (for every configuration, whatever its
flags), so if any of those four entries is absent from the response
mapping, `verify` fails with a raised decode error instead of returning
an outcome. -/
theorem verify_decode_requires_fields (cfg : Config) (env : VerifyEnv) (proof : ProofPoints)
    (ps packed : List String) (root : String) (ts : Nat) (uid : String)
    (r : VerifyAllResult)
    (hpack : env.packForbiddenCountriesList cfg.excludedCountries.value = .ok packed)
    (hroot : env.getIdentityCommitmentMerkleRoot = .ok root)
    (hts : env.rootTimestamps root = .ok ts)
    (hcast : env.castToUserIdentifier (ps.get? VC_AND_DISCLOSE_USER_IDENTIFIER_INDEX) = .ok uid)
    (hva : env.verifyAll ts (buildHubProof cfg packed proof ps) (requestedTypes cfg) = .ok r)
    (hmissing : r.fields revealedDataTypes.older_than = none ∨
      r.fields revealedDataTypes.passport_no_ofac = none ∨
      r.fields revealedDataTypes.name_and_dob_ofac = none ∨
      r.fields revealedDataTypes.name_and_yob_ofac = none) :
    ∃ e, verify cfg env proof ps = .error e := by
  unfold verify
  rw [hpack]
  simp only [bind_ok_eq]
  rw [hroot]
  simp only [bind_ok_eq]
  rw [hts]
  simp only [bind_ok_eq]
  rw [hcast]
  simp only [bind_ok_eq]
  rw [hva]
  rcases hO : r.fields revealedDataTypes.older_than with _ | a <;>
    rcases hP : r.fields revealedDataTypes.passport_no_ofac with _ | b <;>
    rcases hD : r.fields revealedDataTypes.name_and_dob_ofac with _ | c <;>
    rcases hY : r.fields revealedDataTypes.name_and_yob_ofac with _ | d <;>
    simp only [hO, hP, hD, hY] at hmissing ⊢ <;>
    first
      | exact ⟨_, rfl⟩
      | simp at hmissing

/-- Witness for C10 at a concrete environment whose response mapping is
entirely absent. -/
theorem verify_decode_requires_fields_witness :
    ∃ e, verify (mkConfig "s") missingEnv sampleProof sampleSignals = .error e :=
  verify_decode_requires_fields (mkConfig "s") missingEnv sampleProof sampleSignals
    [] "root" 5 "19" missingResult rfl rfl rfl rfl rfl (Or.inl rfl)

end SelfSDK
